import Mathlib

/-!
Shallow embedding of the session-orchestration core of
`src/streamlit_dashboard.py`: the transport client (`check_api_connection`,
`process_query`), the 60-second capability cache (`get_cached_tools`), the
search templater (`search_calls_transcript_database`), and the chat-history
handlers (`chat_submit` for the main form, `quick_query` for quick actions).

Network effects are modelled by explicit outcome parameters: a `ProbeOutcome`
for `GET /`, a `TransportOutcome` for `POST /api/query`, and a
`RefreshOutcome` for the refresh path of the capability cache (the status
fetch returning a document, returning `None`, or an exception being raised
inside the `try` block). Streamlit session state is threaded explicitly as
`CacheState` and `List Turn`. Python dictionaries with possibly-missing keys
become structures of `Option` fields; `dict.get(k, d)` becomes `Option.getD`.
Timestamps are integers; Python truthiness of `result.get('success')` and
`result.get('response')` is modelled as `= some true` and non-empty string.
-/

namespace Dashboard

/-- The cached-tools summary dictionary built by `get_cached_tools`
(lines 116-138 of the source): `count`, `azure_connected`, `mcp_connected`,
a string `status`, and an optional `error` message (present only on the
exception path). -/
structure CachedTools where
  count : Nat
  azure_connected : Bool
  mcp_connected : Bool
  status : String
  error : Option String
deriving DecidableEq

/-- The two session-state slots used by the cache: `st.session_state.cached_tools`
and `st.session_state.cached_tools_time` (both initialised to `None`). -/
structure CacheState where
  cached_tools : Option CachedTools
  cached_tools_time : Option Int
deriving DecidableEq

/-- The JSON status document returned by `GET /status`; every field may be
missing (`api_status.get(key, default)` in the source). -/
structure StatusDoc where
  tools_count : Option Nat
  azure_openai_connected : Option Bool
  mcp_server_connected : Option Bool
deriving DecidableEq

/-- Outcome of the refresh path inside `get_cached_tools`:
`api_client.get_status()` returns a document, returns `None`, or an
exception is raised inside the `try` block. -/
inductive RefreshOutcome where
  | ok (doc : StatusDoc)
  | failed
  | raised (msg : String)
deriving DecidableEq

/-- `cache_duration = 60` seconds (line 98). -/
def cache_duration : Int := 60

/-- The refresh condition of `get_cached_tools` (lines 107-110):
`force_refresh or cached_tools is None or cached_tools_time is None or
(current_time - cached_tools_time) > cache_duration`. -/
def refreshNeeded (force_refresh : Bool) (current_time : Int) (s : CacheState) : Bool :=
  force_refresh || s.cached_tools.isNone || s.cached_tools_time.isNone ||
    decide (current_time - s.cached_tools_time.getD 0 > cache_duration)

/-- The summary built from a status document (lines 116-121), with
missing fields defaulting to `0` / `False`. -/
def successValue (doc : StatusDoc) : CachedTools :=
  { count := doc.tools_count.getD 0
    azure_connected := doc.azure_openai_connected.getD false
    mcp_connected := doc.mcp_server_connected.getD false
    status := "success"
    error := none }

/-- The degraded summary cached when the status fetch returns `None`
(lines 123-128). -/
def failedValue : CachedTools :=
  { count := 0, azure_connected := false, mcp_connected := false
    status := "failed", error := none }

/-- The summary cached when an exception is raised and no prior value
exists (lines 131-138). -/
def errorValue (msg : String) : CachedTools :=
  { count := 0, azure_connected := false, mcp_connected := false
    status := "error", error := some msg }

/-- Result of one `get_cached_tools` call: the returned value
(`st.session_state.cached_tools` after the call), the updated session
state, and whether the refresh path (the status fetch) was entered. -/
structure GetToolsResult where
  value : Option CachedTools
  state : CacheState
  fetch_performed : Bool
deriving DecidableEq

/-- `get_cached_tools(force_refresh)` (lines 96-140). If the refresh
condition holds, the status fetch is attempted: on a document, the success
summary is cached and `cached_tools_time` is set to `current_time`; on
`None`, the degraded summary is cached and the time is set; on an
exception, the error summary is cached only when no prior value exists,
and `cached_tools_time` is NOT touched (the assignment on line 129 sits
inside the `try` block, before the `except`). The function then returns
`st.session_state.cached_tools`. -/
def get_cached_tools (force_refresh : Bool) (current_time : Int)
    (outcome : RefreshOutcome) (s : CacheState) : GetToolsResult :=
  if refreshNeeded force_refresh current_time s then
    match outcome with
    | .ok doc =>
        let s2 : CacheState := ⟨some (successValue doc), some current_time⟩
        ⟨s2.cached_tools, s2, true⟩
    | .failed =>
        let s2 : CacheState := ⟨some failedValue, some current_time⟩
        ⟨s2.cached_tools, s2, true⟩
    | .raised msg =>
        let s2 : CacheState :=
          if s.cached_tools.isNone then ⟨some (errorValue msg), s.cached_tools_time⟩ else s
        ⟨s2.cached_tools, s2, true⟩
  else
    ⟨s.cached_tools, s, false⟩

/-- The JSON body of a query response; downstream reads every field with
`dict.get`, so all fields are optional. `iteration_details` is modelled as
an opaque list of strings (never inspected by the claims). -/
structure ApiResult where
  success : Option Bool
  response : Option String
  error : Option String
  total_rounds : Option Nat
  total_execution_time : Option Nat
  iteration_details : Option (List String)
deriving DecidableEq

/-- Outcome of the `POST /api/query` transport call: an HTTP response with
a status code and parsed body, or a raised exception (timeout, connection
error, ...). -/
inductive TransportOutcome where
  | response (status_code : Nat) (body : ApiResult)
  | exception (msg : String)
deriving DecidableEq

/-- `APIClient.process_query` (lines 64-90): on a 200 response, the parsed
body is returned as-is; on a non-200 status, a normalized failure record
with response text `"API request failed with status <code>"` and error
`"HTTP <code>"`; on an exception, a normalized failure record with
response text `"Request error: <msg>"` and error `<msg>`. All failure
records carry `total_rounds = 0` and `total_execution_time = 0`. Being a
total Lean function, the model never raises. -/
def process_query (query : String) (o : TransportOutcome) : ApiResult :=
  match o with
  | .response code body =>
      if code = 200 then body
      else
        { success := some false
          response := some ("API request failed with status " ++ toString code)
          error := some ("HTTP " ++ toString code)
          total_rounds := some 0
          total_execution_time := some 0
          iteration_details := some [] }
  | .exception msg =>
      { success := some false
        response := some ("Request error: " ++ msg)
        error := some msg
        total_rounds := some 0
        total_execution_time := some 0
        iteration_details := some [] }

/-- Outcome of the `GET /` liveness request. -/
inductive ProbeOutcome where
  | response (status_code : Nat)
  | exception (msg : String)
deriving DecidableEq

/-- `APIClient.check_api_connection` (lines 42-49): `status_code == 200` on
a response; any exception is caught, a diagnostic is printed, and `False`
is returned. Being a total Lean function, the model never raises. -/
def check_api_connection (o : ProbeOutcome) : Bool :=
  match o with
  | .response code => code == 200
  | .exception _ => false

/-- The fixed search template of `search_calls_transcript_database`
(line 148): the term is wrapped in single quotes
and the limit is interpolated. -/
def search_query_string (query : String) (max_results : Nat) : String :=
  "Search for \x27" ++ query ++ "\x27 in the transcript database, limit to " ++
    toString max_results ++ " results"

/-- The structured result of `search_calls_transcript_database`. -/
structure SearchResult where
  success : Bool
  results : List String
  total_found : Nat
  response_text : Option String
  error : Option String
deriving DecidableEq

/-- `search_calls_transcript_database` (lines 143-171): renders the search
template and dispatches it through `process_query` (the same path as
free-form text). On a truthy `success`, `total_found` is `1` when the
response text is truthy (a non-empty string) and `0` otherwise; on a falsy
`success`, a failure record with `total_found = 0` and the dispatch error
(defaulting to `"Search failed"`). The outer `except` of the source is
unreachable here because `process_query` is total. -/
def search_calls_transcript_database (query : String) (max_results : Nat)
    (o : TransportOutcome) : SearchResult :=
  let result := process_query (search_query_string query max_results) o
  if result.success = some true then
    { success := true
      results := []
      total_found := if (result.response.getD "").isEmpty then 0 else 1
      response_text := some (result.response.getD "")
      error := none }
  else
    { success := false
      results := []
      total_found := 0
      response_text := none
      error := some (result.error.getD "Search failed") }

/-- One entry of `st.session_state.chat_history`: a dictionary whose
optional keys (`execution_time`, `api_rounds`, `api_execution_time`) are
present only on some append sites. -/
structure Turn where
  role : String
  content : String
  timestamp : String
  execution_time : Option Int
  api_rounds : Option Nat
  api_execution_time : Option Nat
deriving DecidableEq

/-- The user-role turn appended before each dispatch (lines 580-584 and
681-685): only `role`, `content`, `timestamp`. -/
def userTurn (content ts : String) : Turn :=
  ⟨"user", content, ts, none, none, none⟩

/-- The chat-form handler of `simple_interface` (lines 578-624): append the
user turn, dispatch via `process_query`, then append an assistant turn — on
truthy `success` with the response text, locally measured
`execution_time`, `api_rounds` and `api_execution_time`; otherwise with
content `"Error: <error>"`, `execution_time`, and no `api_rounds`. The
`except` branch of the source is unreachable because `process_query` is
total. -/
def chat_submit (user_input : String) (o : TransportOutcome) (ts : String)
    (start_time end_time : Int) (history : List Turn) : List Turn :=
  let h1 := history ++ [userTurn user_input ts]
  let result := process_query user_input o
  if result.success = some true then
    h1 ++ [⟨"assistant", result.response.getD "No response received", ts,
            some (end_time - start_time), some (result.total_rounds.getD 0),
            some (result.total_execution_time.getD 0)⟩]
  else
    h1 ++ [⟨"assistant", "Error: " ++ result.error.getD "Unknown error", ts,
            some (end_time - start_time), none, none⟩]

/-- Result of one `quick_query` call: the updated chat history, whether the
transport call (`process_query`) was reached, and the `st.error` message
shown, if any. -/
structure QuickQueryResult where
  history : List Turn
  dispatched : Bool
  error_shown : Option String
deriving DecidableEq

/-- `quick_query` (lines 674-720): when `st.session_state.api_connected` is
false, show `"API not connected"` and return before appending anything or
touching the transport. Otherwise append the user turn, dispatch, and
append the assistant turn (success text or `"Error: <error>"`), with the
locally measured `execution_time` and no `api_rounds` on either branch.
The `except` branch of the source is unreachable because `process_query`
is total. -/
def quick_query (connected : Bool) (query : String) (o : TransportOutcome)
    (ts : String) (start_time end_time : Int) (history : List Turn) : QuickQueryResult :=
  if !connected then
    ⟨history, false, some "API not connected"⟩
  else
    let h1 := history ++ [userTurn query ts]
    let result := process_query query o
    if result.success = some true then
      ⟨h1 ++ [⟨"assistant", result.response.getD "No response received", ts,
              some (end_time - start_time), none, none⟩], true, none⟩
    else
      ⟨h1 ++ [⟨"assistant", "Error: " ++ result.error.getD "Unknown error", ts,
              some (end_time - start_time), none, none⟩], true, none⟩

/-- A cached-tools summary is well-formed when its `status` is one of the
three strings the refresh paths write. -/
def wellFormedValue (v : CachedTools) : Bool :=
  v.status == "success" || v.status == "failed" || v.status == "error"

/-- A cache state is well-formed when its cached value, if present, is
well-formed. The initial state (both slots `None`) is well-formed. -/
def cacheWF (s : CacheState) : Bool :=
  match s.cached_tools with
  | none => true
  | some v => wellFormedValue v

/-- The normalized response text of an HTTP-status failure is never equal to
the normalized response text of a transport exception: the two templates
start with different characters. -/
theorem http_text_ne_transport_text (a b : String) :
    "API request failed with status " ++ a ≠ "Request error: " ++ b := by
  intro h
  have h1 := congrArg (fun s => s.data.head?) h
  simp only [String.data_append] at h1
  simp at h1

/-- C1: a `get_cached_tools` call with `force_refresh = false`, a non-null
cached value, a non-null cached fetch time, and at most 60 seconds elapsed
since that time performs no status fetch, returns exactly the cached value,
and leaves the cache state unchanged. -/
theorem c1_cache_ttl_read (current_time t : Int) (v : CachedTools)
    (o : RefreshOutcome) (s : CacheState)
    (h1 : s.cached_tools = some v) (h2 : s.cached_tools_time = some t)
    (h3 : current_time - t ≤ cache_duration) :
    (get_cached_tools false current_time o s).fetch_performed = false ∧
    (get_cached_tools false current_time o s).value = some v ∧
    (get_cached_tools false current_time o s).state = s := by
  have hr : refreshNeeded false current_time s = false := by
    simp [refreshNeeded, h1, h2]
    omega
  simp [get_cached_tools, hr, h1]

/-- Witness for C1 at a concrete state: cached degraded value fetched at
time 0, read at time 30 — no fetch, same value, same state. -/
theorem c1_cache_ttl_read_witness :
    (get_cached_tools false 30 RefreshOutcome.failed ⟨some failedValue, some 0⟩).fetch_performed = false ∧
    (get_cached_tools false 30 RefreshOutcome.failed ⟨some failedValue, some 0⟩).value = some failedValue ∧
    (get_cached_tools false 30 RefreshOutcome.failed ⟨some failedValue, some 0⟩).state = ⟨some failedValue, some 0⟩ :=
  c1_cache_ttl_read 30 0 failedValue RefreshOutcome.failed ⟨some failedValue, some 0⟩ rfl rfl (by decide)

/-- C2 counterexample: at the initial state (nothing cached), a refresh
attempt at time 100 in which the refresh path raises an exception does NOT
update the cached fetch timestamp to the current time — line 129 of the
source sits inside the `try` block, so the exception skips it. -/
theorem c2_counterexample :
    refreshNeeded false 100 ⟨none, none⟩ = true ∧
    (get_cached_tools false 100 (RefreshOutcome.raised "boom") ⟨none, none⟩).fetch_performed = true ∧
    (get_cached_tools false 100 (RefreshOutcome.raised "boom") ⟨none, none⟩).state.cached_tools_time ≠ some 100 := by
  decide

/-- C2 (amended): on every refresh attempt in which the status fetch
succeeds or returns null, the cached fetch timestamp is updated to the
current time; when an exception is raised inside the refresh path, the
timestamp is left unchanged. -/
theorem c2_fetched_at_update (force_refresh : Bool) (current_time : Int)
    (o : RefreshOutcome) (s : CacheState)
    (h : refreshNeeded force_refresh current_time s = true) :
    ((∀ msg, o ≠ RefreshOutcome.raised msg) →
      (get_cached_tools force_refresh current_time o s).state.cached_tools_time = some current_time) ∧
    (∀ msg, o = RefreshOutcome.raised msg →
      (get_cached_tools force_refresh current_time o s).state.cached_tools_time = s.cached_tools_time) := by
  constructor
  · intro hne
    cases o with
    | ok doc => simp [get_cached_tools, h]
    | failed => simp [get_cached_tools, h]
    | raised msg => exact absurd rfl (hne msg)
  · intro msg hmsg
    subst hmsg
    simp only [get_cached_tools, h, if_true]
    by_cases hc : s.cached_tools.isNone <;> simp [hc]

/-- Witness for C2 (amended) at a concrete refresh: forced refresh at time
5 whose fetch returns null sets the timestamp to 5. -/
theorem c2_fetched_at_update_witness :
    (get_cached_tools true 5 RefreshOutcome.failed ⟨none, none⟩).state.cached_tools_time = some 5 :=
  (c2_fetched_at_update true 5 RefreshOutcome.failed ⟨none, none⟩ (by decide)).1
    (fun _ h => RefreshOutcome.noConfusion h)

/-- C3: `process_query` is a total function (it never raises) and: on a
non-200 status it returns the normalized failure record with `success =
false`, a populated `error` (`"HTTP <code>"`), zero `total_rounds`, zero
`total_execution_time`, and response text `"API request failed with status
<code>"`; on a transport exception it returns the normalized failure record
with `success = false`, the exception message as `error`, zeros, and
response text `"Request error: <msg>"`; the two response-text templates are
disjoint, so the text distinguishes the two failure classes; and on a 200
response the parsed body is returned as-is. -/
theorem c3_process_query_normalization (query : String) (o : TransportOutcome) :
    (∀ code body, o = TransportOutcome.response code body → code ≠ 200 →
      process_query query o =
        { success := some false
          response := some ("API request failed with status " ++ toString code)
          error := some ("HTTP " ++ toString code)
          total_rounds := some 0
          total_execution_time := some 0
          iteration_details := some [] }) ∧
    (∀ msg, o = TransportOutcome.exception msg →
      process_query query o =
        { success := some false
          response := some ("Request error: " ++ msg)
          error := some msg
          total_rounds := some 0
          total_execution_time := some 0
          iteration_details := some [] }) ∧
    (∀ body, o = TransportOutcome.response 200 body → process_query query o = body) ∧
    (∀ (code : Nat) (msg : String),
      "API request failed with status " ++ toString code ≠ "Request error: " ++ msg) := by
  refine ⟨?_, ?_, ?_, fun code msg => http_text_ne_transport_text (toString code) msg⟩
  · intro code body ho hc
    subst ho
    simp [process_query, hc]
  · intro msg ho
    subst ho
    rfl
  · intro body ho
    subst ho
    rfl

/-- Witness for C3 at a concrete non-200 outcome: a 503 response
normalizes to the HTTP-failure record. -/
theorem c3_process_query_normalization_witness :
    process_query "hello" (TransportOutcome.response 503 ⟨none, none, none, none, none, none⟩) =
      { success := some false
        response := some ("API request failed with status " ++ toString (503 : Nat))
        error := some ("HTTP " ++ toString (503 : Nat))
        total_rounds := some 0
        total_execution_time := some 0
        iteration_details := some [] } :=
  (c3_process_query_normalization "hello"
      (TransportOutcome.response 503 ⟨none, none, none, none, none, none⟩)).1
    503 ⟨none, none, none, none, none, none⟩ rfl (by decide)

/-- C4: the liveness probe returns `true` exactly when the `GET /` request
came back with status 200; any other status and any transport exception
yield `false`, and the model is a total function, so it never raises. -/
theorem c4_check_api_connection (o : ProbeOutcome) :
    check_api_connection o = true ↔ o = ProbeOutcome.response 200 := by
  cases o with
  | response code => simp [check_api_connection]
  | exception msg => simp [check_api_connection]

/-- C5: on a capability-cache refresh, a returned status document maps
`tools_count` to `count`, `azure_openai_connected` to `azure_connected`,
`mcp_server_connected` to `mcp_connected` (missing fields defaulting to
`0` / `false`) with status `"success"`; a null fetch result yields the
degraded value (zero count, both flags false) with status `"failed"`. -/
theorem c5_refresh_mapping (force_refresh : Bool) (current_time : Int)
    (s : CacheState) (doc : StatusDoc)
    (h : refreshNeeded force_refresh current_time s = true) :
    (get_cached_tools force_refresh current_time (RefreshOutcome.ok doc) s).value =
      some { count := doc.tools_count.getD 0
             azure_connected := doc.azure_openai_connected.getD false
             mcp_connected := doc.mcp_server_connected.getD false
             status := "success"
             error := none } ∧
    (get_cached_tools force_refresh current_time RefreshOutcome.failed s).value =
      some { count := 0, azure_connected := false, mcp_connected := false
             status := "failed", error := none } := by
  constructor
  · simp [get_cached_tools, h, successValue]
  · simp [get_cached_tools, h, failedValue]

/-- Witness for C5 at the concrete scenario of the spec: a fetch returning
`{tools_count: 7, azure_openai_connected: true, mcp_server_connected:
false}` yields `count = 7`, `azure_connected = true`,
`mcp_connected = false`, `status = "success"`. -/
theorem c5_refresh_mapping_witness :
    (get_cached_tools true 0 (RefreshOutcome.ok ⟨some 7, some true, some false⟩) ⟨none, none⟩).value =
      some { count := 7, azure_connected := true, mcp_connected := false
             status := "success", error := none } :=
  ((c5_refresh_mapping true 0 ⟨none, none⟩ ⟨some 7, some true, some false⟩ (by decide)).1).trans
    (by decide)

/-- C6: when an exception is raised inside the refresh path, a prior cached
value is retained untouched (the whole state is unchanged); when no cached
value exists, the cache is populated with the error value, whose `status`
is `"error"` and whose `error` field carries the exception message. -/
theorem c6_exception_retention (force_refresh : Bool) (current_time : Int)
    (msg : String) (s : CacheState)
    (h : refreshNeeded force_refresh current_time s = true) :
    (∀ v, s.cached_tools = some v →
      (get_cached_tools force_refresh current_time (RefreshOutcome.raised msg) s).value = some v ∧
      (get_cached_tools force_refresh current_time (RefreshOutcome.raised msg) s).state = s) ∧
    (s.cached_tools = none →
      (get_cached_tools force_refresh current_time (RefreshOutcome.raised msg) s).value =
        some (errorValue msg) ∧
      (errorValue msg).status = "error" ∧ (errorValue msg).error = some msg) := by
  constructor
  · intro v hv
    simp [get_cached_tools, h, hv]
  · intro hn
    refine ⟨?_, rfl, rfl⟩
    simp [get_cached_tools, h, hn]

/-- Witness for C6 at a concrete state with a prior value: an exception
during a forced refresh retains the cached degraded value and the state. -/
theorem c6_exception_retention_witness :
    (get_cached_tools true 10 (RefreshOutcome.raised "boom") ⟨some failedValue, some 0⟩).value =
      some failedValue ∧
    (get_cached_tools true 10 (RefreshOutcome.raised "boom") ⟨some failedValue, some 0⟩).state =
      ⟨some failedValue, some 0⟩ :=
  (c6_exception_retention true 10 "boom" ⟨some failedValue, some 0⟩ (by decide)).1
    failedValue rfl

/-- C7: for every search term and limit, the search operation dispatches the
fixed natural-language template (term and limit embedded) through
`process_query` — the same path as free-form text — and `total_found` is
`1` exactly when the dispatch succeeded with a non-empty response text, and
`0` otherwise (empty or missing response text, dispatch failure). -/
theorem c7_search_total_found (query : String) (max_results : Nat) (o : TransportOutcome) :
    search_query_string query max_results =
      "Search for \x27" ++ query ++ "\x27 in the transcript database, limit to " ++
        toString max_results ++ " results" ∧
    (search_calls_transcript_database query max_results o).total_found =
      (if (process_query (search_query_string query max_results) o).success = some true then
        (if (process_query (search_query_string query max_results) o).response.getD "" = ""
          then 0 else 1)
       else 0) := by
  refine ⟨rfl, ?_⟩
  unfold search_calls_transcript_database
  by_cases hs : (process_query (search_query_string query max_results) o).success = some true
  · simp only [hs, if_true]
    by_cases he : (process_query (search_query_string query max_results) o).response.getD "" = ""
    · simp [he, String.isEmpty_iff]
    · simp [he, String.isEmpty_iff]
  · simp [hs]

/-- C8: when a dispatched query's normalized result has `success = false`
(a timeout or any transport failure normalizes that way), both the chat
form handler and `quick_query` append an assistant-role turn whose content
states the error (`"Error: <error>"`), carrying the locally measured
`execution_time` and no `api_rounds` field; the updated history extends the
old one, so the session continues. -/
theorem c8_error_turn (query : String) (o : TransportOutcome) (ts : String)
    (start_time end_time : Int) (history : List Turn)
    (h : (process_query query o).success = some false) :
    chat_submit query o ts start_time end_time history =
      history ++ [userTurn query ts,
        ⟨"assistant", "Error: " ++ (process_query query o).error.getD "Unknown error", ts,
         some (end_time - start_time), none, none⟩] ∧
    (quick_query true query o ts start_time end_time history).history =
      history ++ [userTurn query ts,
        ⟨"assistant", "Error: " ++ (process_query query o).error.getD "Unknown error", ts,
         some (end_time - start_time), none, none⟩] := by
  have hne : ¬((process_query query o).success = some true) := by
    rw [h]; simp
  constructor
  · simp [chat_submit, hne]
  · simp [quick_query, hne]

/-- Witness for C8 at a concrete timeout: a transport exception yields an
assistant turn with the error text, the measured time, and no rounds. -/
theorem c8_error_turn_witness :
    chat_submit "q" (TransportOutcome.exception "timed out") "t" 0 3 [] =
      [userTurn "q" "t",
        ⟨"assistant",
         "Error: " ++ (process_query "q" (TransportOutcome.exception "timed out")).error.getD "Unknown error",
         "t", some (3 - 0), none, none⟩] :=
  (c8_error_turn "q" (TransportOutcome.exception "timed out") "t" 0 3 [] (by decide)).1

/-- C9: when the session's connected flag is false, `quick_query` rejects
the dispatch before any transport call: the connectivity error
`"API not connected"` is surfaced, `process_query` is never reached
(`dispatched = false`, and the result does not depend on the transport
outcome), and the chat history is unchanged. -/
theorem c9_disconnected_reject (query : String) (o : TransportOutcome) (ts : String)
    (start_time end_time : Int) (history : List Turn) :
    quick_query false query o ts start_time end_time history =
      ⟨history, false, some "API not connected"⟩ := by
  rfl

/-- C10: from any well-formed cache state (in particular the initial one),
every `get_cached_tools` call — any `force_refresh`, any prior state, fetch
success, null result, or exception — returns a non-null summary record
(which by its type carries `count`, `azure_connected`, `mcp_connected`)
whose `status` is one of `"success"`, `"failed"`, `"error"`, and the
resulting state is again well-formed. -/
theorem c10_never_null_wellformed (force_refresh : Bool) (current_time : Int)
    (o : RefreshOutcome) (s : CacheState) (h : cacheWF s = true) :
    ∃ v, (get_cached_tools force_refresh current_time o s).value = some v ∧
      wellFormedValue v = true ∧
      cacheWF (get_cached_tools force_refresh current_time o s).state = true := by
  by_cases hr : refreshNeeded force_refresh current_time s = true
  · cases o with
    | ok doc =>
        refine ⟨successValue doc, ?_, ?_, ?_⟩ <;>
          simp [get_cached_tools, hr, cacheWF, wellFormedValue, successValue]
    | failed =>
        refine ⟨failedValue, ?_, ?_, ?_⟩ <;>
          simp [get_cached_tools, hr, cacheWF, wellFormedValue, failedValue]
    | raised msg =>
        cases hc : s.cached_tools with
        | none =>
            refine ⟨errorValue msg, ?_, ?_, ?_⟩ <;>
              simp [get_cached_tools, hr, hc, cacheWF, wellFormedValue, errorValue]
        | some v =>
            have hv : wellFormedValue v = true := by
              simpa [cacheWF, hc] using h
            refine ⟨v, ?_, hv, ?_⟩ <;>
              simp [get_cached_tools, hr, hc, cacheWF, hv]
  · have hr' : refreshNeeded force_refresh current_time s = false := by
      simpa using hr
    have hcn : s.cached_tools.isNone = false := by
      by_contra hcc
      have : s.cached_tools.isNone = true := by
        cases hh : s.cached_tools.isNone
        · exact absurd hh hcc
        · rfl
      simp [refreshNeeded, this] at hr'
    cases hc : s.cached_tools with
    | none => rw [hc] at hcn; simp at hcn
    | some v =>
        have hv : wellFormedValue v = true := by
          simpa [cacheWF, hc] using h
        refine ⟨v, ?_, hv, ?_⟩ <;>
          simp [get_cached_tools, hr', hc, cacheWF, hv]

/-- Witness for C10 at the initial state with an exception outcome: the
error value is returned, well-formed, and the state stays well-formed. -/
theorem c10_never_null_wellformed_witness :
    ∃ v, (get_cached_tools false 0 (RefreshOutcome.raised "x") ⟨none, none⟩).value = some v ∧
      wellFormedValue v = true ∧
      cacheWF (get_cached_tools false 0 (RefreshOutcome.raised "x") ⟨none, none⟩).state = true :=
  c10_never_null_wellformed false 0 (RefreshOutcome.raised "x") ⟨none, none⟩ (by decide)

end Dashboard
